import Mathlib

/-!
# XBee packet protocol engine — verification development

Shallow embedding of the radio packet protocol engine of
`firmware/trunk/controller/makingthings/xbee.c`: the byte-at-a-time receiver
state machine (`XBee_GetPacket`), the packet builder/sender
(`XBee_SendPacket`), and the typed decode functions
(`XBee_ReadRX16Packet`, `XBee_ReadRX64Packet`, `XBee_ReadIO16Packet`,
`XBee_ReadIO64Packet`, `XBee_ReadAtResponsePacket`, `XBee_ReadTXStatusPacket`,
`XBee_GetIOValues`), together with theorems settling the specification's
claims about them.

Modelling conventions:
* A C `XBeePacket` struct is modelled as a flat byte image `buf` (byte 0 is
  the `apiId` field, the union payload follows at byte 1) plus the transient
  parsing fields `crc`, `rxState`, `length`, `index` and the write cursor
  `dataPtr` (modelled as the offset of the C `dataPtr` pointer from the start
  of the struct).
* Machine integers are `Nat` with explicit reductions: a store into a `uint8`
  field takes the value modulo 256, `uint8` checksum accumulation is modulo
  256, `uint64` accumulation is modulo `2 ^ 64`.  C shifts on non-negative
  values are written as multiplication and division by powers of two, and
  bitwise or of disjoint byte fields is written as addition.
* The serial transport is modelled as an explicit byte list: receiving
  consumes a list of available bytes, sending produces the emitted byte list.
* Nullable output-parameter pointers are modelled by a flag record (pointer
  non-null or not) together with a record of the values held in the caller's
  output locations before the call; the function returns the output
  locations after the call.

The header `xbee.h` (struct layouts and numeric constants) is not part of
the sources; the layouts and constants below carry doc comments marking them
as modelled from the specification's data-model section.
-/

/-- Receiver framing states of `XBee_GetPacket`
(`XBEE_PACKET_RX_START` .. `XBEE_PACKET_RX_CRC`). -/
inductive RxState where
  | start
  | length1
  | length2
  | payload
  | crc
deriving DecidableEq, Repr

/-- Modelled from the spec: the packet kind tags and sizing constants live in
the missing header `xbee.h`.  `XBEE_PACKET_STARTBYTE` is the start-of-frame
byte value. -/
def XBEE_PACKET_STARTBYTE : Nat := 0x7E

/-- Modelled from the spec: the fixed maximum buffer capacity
(`XBEE_MAX_PACKET_SIZE`) that received declared lengths are clamped to. -/
def XBEE_MAX_PACKET_SIZE : Nat := 100

/-- Modelled from the spec: kind tag for a 64-bit-address transmit packet. -/
def XBEE_TX64 : Nat := 0x00
/-- Modelled from the spec: kind tag for a 16-bit-address transmit packet. -/
def XBEE_TX16 : Nat := 0x01
/-- Modelled from the spec: kind tag for an AT command packet. -/
def XBEE_ATCOMMAND : Nat := 0x08
/-- Modelled from the spec: kind tag for an AT command packet with no
response requested. -/
def XBEE_ATCOMMANDQ : Nat := 0x09
/-- Modelled from the spec: kind tag for a 64-bit-address receive packet. -/
def XBEE_RX64 : Nat := 0x80
/-- Modelled from the spec: kind tag for a 16-bit-address receive packet. -/
def XBEE_RX16 : Nat := 0x81
/-- Modelled from the spec: kind tag for a 64-bit-address I/O sample packet. -/
def XBEE_IO64 : Nat := 0x82
/-- Modelled from the spec: kind tag for a 16-bit-address I/O sample packet. -/
def XBEE_IO16 : Nat := 0x83
/-- Modelled from the spec: kind tag for an AT command response packet. -/
def XBEE_ATCOMMANDRESPONSE : Nat := 0x88
/-- Modelled from the spec: kind tag for a transmit-status packet. -/
def XBEE_TXSTATUS : Nat := 0x89

/-- The `XBeePacket` struct: `buf` is the flat byte image whose byte 0 is the
`apiId` field and whose bytes 1.. are the kind-dependent union payload
(layout modelled from the spec's data-model table, the header defining the
union is not among the sources); the remaining fields are the transient
parsing state of `xbee.c`. -/
structure XBeePacket where
  buf : List Nat
  crc : Nat
  rxState : RxState
  length : Nat
  index : Nat
  dataPtr : Nat
deriving DecidableEq, Repr

/-- `XBee_ResetPacket`: `dataPtr = (uint8*)packet`, `crc = 0`,
`rxState = XBEE_PACKET_RX_START`, `length = 0`, `index = 0`, `apiId = 0`
(byte 0 of the image). -/
def XBee_ResetPacket (p : XBeePacket) : XBeePacket :=
  { p with buf := p.buf.set 0 0, crc := 0, rxState := .start,
           length := 0, index := 0, dataPtr := 0 }

/-- The `apiId` field: byte 0 of the packet image (a `uint8`). -/
def apiId (p : XBeePacket) : Nat := p.buf.getD 0 0 % 256

/-- Reading byte `n` of the packet image as a `uint8` field. -/
def byteAt (p : XBeePacket) (n : Nat) : Nat := p.buf.getD n 0 % 256

/-- One iteration of the receive loop body of `XBee_GetPacket` on incoming
byte `c`: the start-byte resynchronization check followed by the `rxState`
switch.  Returns the updated packet and `none` to keep consuming,
`some true` for `return 1` (packet ready), `some false` for the `return 0`
after a checksum mismatch. -/
def stepByte (p0 : XBeePacket) (c : Nat) : XBeePacket × Option Bool :=
  let p := if c = XBEE_PACKET_STARTBYTE ∧ p0.rxState ≠ .start
           then XBee_ResetPacket p0 else p0
  match p.rxState with
  | .start =>
      (if c = XBEE_PACKET_STARTBYTE then { p with rxState := .length1 } else p,
       none)
  | .length1 =>
      ({ p with length := c * 256, rxState := .length2 }, none)
  | .length2 =>
      let len := p.length + c
      ({ p with length := if len > XBEE_MAX_PACKET_SIZE
                          then XBEE_MAX_PACKET_SIZE else len,
                rxState := .payload }, none)
  | .payload =>
      ({ p with buf := p.buf.set p.dataPtr (c % 256),
                dataPtr := p.dataPtr + 1,
                index := p.index + 1,
                rxState := if p.index + 1 ≥ p.length then .crc else .payload,
                crc := (p.crc + c) % 256 }, none)
  | .crc =>
      let crcTotal := (p.crc + c) % 256
      if crcTotal = 0xFF then
        ({ p with crc := crcTotal, rxState := .start }, some true)
      else
        (XBee_ResetPacket { p with crc := crcTotal, rxState := .start },
         some false)

/-- `XBee_GetPacket` on an explicit byte stream: consumes available bytes one
at a time through `stepByte`, stopping early when a step returns
(`some true` for a complete packet, `some false` after a checksum mismatch);
`none` means the input ran dry mid-frame (the C function returns 0 and the
caller must call again later).  Also returns the unconsumed rest of the
stream. -/
def XBee_GetPacket : XBeePacket → List Nat → XBeePacket × List Nat × Option Bool
  | p, [] => (p, [], none)
  | p, c :: rest =>
    match stepByte p c with
    | (p2, none) => XBee_GetPacket p2 rest
    | (p2, some b) => (p2, rest, some b)

/-- The payload-size switch of `XBee_SendPacket`: total payload length from
the kind tag and the caller-declared data length. -/
def sendSize (api : Nat) (datalength : Nat) : Nat :=
  if api = XBEE_RX64 ∨ api = XBEE_TX64 then datalength + 11
  else if api = XBEE_RX16 ∨ api = XBEE_TX16 ∨ api = XBEE_ATCOMMANDRESPONSE then
    datalength + 5
  else if api = XBEE_TXSTATUS then 3
  else if api = XBEE_ATCOMMAND ∨ api = XBEE_ATCOMMANDQ then datalength + 4
  else 0

/-- `XBee_SendPacket`: the emitted byte sequence — start byte, the two
big-endian size bytes (`(size >> 8) & 0xFF` and `size & 0xFF`), `size` bytes
of the packet image starting at the kind tag (read as `uint8`s), and the
checksum byte `0xFF` minus the modulo-256 sum of the streamed payload
bytes. -/
def XBee_SendPacket (p : XBeePacket) (datalength : Nat) : List Nat :=
  let size := sendSize (apiId p) datalength
  let payload := (p.buf.take size).map (· % 256)
  XBEE_PACKET_STARTBYTE :: (size / 256 % 256) :: (size % 256) ::
    payload ++ [0xFF - payload.sum % 256]

/-- A packet value whose byte image is `b` and whose parsing state is freshly
reset, as left by `XBee_ResetPacket` (up to byte 0 of the image). -/
def mkFresh (b : List Nat) : XBeePacket :=
  { buf := b, crc := 0, rxState := .start, length := 0, index := 0, dataPtr := 0 }

/-- Sequential `uint8` stores of the bytes `cs` into the image `l` starting
at offset `i` — the effect of the receiver's payload phase on the buffer. -/
def setSeq : List Nat → Nat → List Nat → List Nat
  | l, _, [] => l
  | l, i, c :: cs => setSeq (l.set i (c % 256)) (i + 1) cs

/-- The wire envelope of a frame with payload `p`, per the spec's frame
codec section: start byte, big-endian length, payload, checksum byte
`0xFF - (sum of payload bytes mod 256)`. -/
def frameBytes (p : List Nat) : List Nat :=
  XBEE_PACKET_STARTBYTE :: (p.length / 256 % 256) :: (p.length % 256) ::
    p ++ [0xFF - p.sum % 256]

/-- Conversion of a C `int` value to a `uint8` (store into an 8-bit output
parameter), as in `*datalength = xbp->length - 5`. -/
def u8ofInt (i : Int) : Nat := (i % 256).toNat

/-- The 64-bit source-address accumulation loop shared by
`XBee_ReadRX64Packet` and `XBee_ReadIO64Packet`:
`for i in 0..7: *srcAddress <<= i*8; *srcAddress += source[i]`, on the
caller's previous `uint64` contents `pre` (the loop never clears the
output first). -/
def addr64fold (pre : Nat) (src : Nat → Nat) : Nat :=
  (List.range 8).foldl (fun v i => (v * 2 ^ (8 * i) + src i) % 2 ^ 64) pre

/-- Which output-parameter pointers of `XBee_ReadRX16Packet` /
`XBee_ReadRX64Packet` are non-null. -/
structure RXFlags where
  srcAddress : Bool
  sigstrength : Bool
  options : Bool
  data : Bool
  datalength : Bool
deriving DecidableEq, Repr

/-- The caller's output locations for `XBee_ReadRX16Packet` /
`XBee_ReadRX64Packet` (the `data` pointer is modelled as the byte region it
is set to point into). -/
structure RXOuts where
  srcAddress : Nat
  sigstrength : Nat
  options : Nat
  data : List Nat
  datalength : Nat
deriving DecidableEq, Repr

/-- `XBee_ReadRX16Packet`: fails unless the kind tag is `XBEE_RX16`;
otherwise fills each non-null output from the `rx16` layout
(source at bytes 1-2 big-endian, rssi at 3, options at 4, data from byte 5,
datalength `length - 5` truncated to `uint8`). -/
def XBee_ReadRX16Packet (xbp : XBeePacket) (f : RXFlags) (pre : RXOuts) :
    Bool × RXOuts :=
  if apiId xbp ≠ XBEE_RX16 then (false, pre)
  else
    (true,
     { srcAddress := if f.srcAddress then byteAt xbp 1 * 256 + byteAt xbp 2
                     else pre.srcAddress,
       sigstrength := if f.sigstrength then byteAt xbp 3 else pre.sigstrength,
       options := if f.options then byteAt xbp 4 else pre.options,
       data := if f.data then (xbp.buf.drop 5).map (· % 256) else pre.data,
       datalength := if f.datalength then u8ofInt ((xbp.length : Int) - 5)
                     else pre.datalength })

/-- `XBee_ReadRX64Packet`: fails unless the kind tag is `XBEE_RX64`;
otherwise fills each non-null output from the `rx64` layout (source at
bytes 1-8 through `addr64fold`, rssi at 9, options at 10, data from byte 11,
datalength `length - 11` truncated to `uint8`). -/
def XBee_ReadRX64Packet (xbp : XBeePacket) (f : RXFlags) (pre : RXOuts) :
    Bool × RXOuts :=
  if apiId xbp ≠ XBEE_RX64 then (false, pre)
  else
    (true,
     { srcAddress := if f.srcAddress then
                       addr64fold pre.srcAddress (fun i => byteAt xbp (1 + i))
                     else pre.srcAddress,
       sigstrength := if f.sigstrength then byteAt xbp 9 else pre.sigstrength,
       options := if f.options then byteAt xbp 10 else pre.options,
       data := if f.data then (xbp.buf.drop 11).map (· % 256) else pre.data,
       datalength := if f.datalength then u8ofInt ((xbp.length : Int) - 11)
                     else pre.datalength })

/-- Modelled from the spec: the loop bound `XBEE_INPUTS` of
`XBee_GetIOValues` comes from the missing header `xbee.h`; the spec's
driver-loop and scenario sections describe a sampled input array of fixed
width 9 (the 9 I/O pins of the module), so it is modelled as 9.  (Were the
header to define more sampled channels than 9, the analog pass of the loop
would additionally run and overwrite the low entries.) -/
def XBEE_INPUTS : Nat := 9

/-- The per-channel loop state of `XBee_GetIOValues`: the caller's `inputs`
array, the cached 16-bit digital sample word `digitalins`, the data cursor
`p` (as offset `pos` into the packet image) and the shifting
`channelIndicators` mask. -/
structure IOScan where
  inputs : List Nat
  digitalins : Nat
  pos : Nat
  chInd : Nat
deriving DecidableEq, Repr

/-- One iteration of the channel loop of `XBee_GetIOValues` for channel `i`:
bit 0 of the shifting mask enables the channel; digital channels (`i < 9`)
lazily read the two-byte digital word once and take bit `i` scaled to 1023,
disabled ones store 0; analog channels read two bytes into entry `i - 9`,
disabled ones store 0 there. -/
def ioSampleStep (xbp : XBeePacket) (st : IOScan) (i : Nat) : IOScan :=
  let chInd := st.chInd / 2
  if i < 9 then
    if st.chInd % 2 = 1 then
      let dig := if st.digitalins = 0
                 then (byteAt xbp st.pos * 256 + byteAt xbp (st.pos + 1),
                       st.pos + 2)
                 else (st.digitalins, st.pos)
      { inputs := (st.inputs.set i (dig.1 / 2 ^ i % 2 * 1023)),
        digitalins := dig.1, pos := dig.2, chInd := chInd }
    else
      { st with inputs := (st.inputs.set i 0), chInd := chInd }
  else
    if st.chInd % 2 = 1 then
      let ain := byteAt xbp st.pos * 256 + byteAt xbp (st.pos + 1)
      { st with inputs := (st.inputs.set (i - 9) ain),
                pos := st.pos + 2, chInd := chInd }
    else
      { st with inputs := (st.inputs.set (i - 9) 0), chInd := chInd }

/-- `XBee_GetIOValues`: succeeds only for the two I/O sample kinds, scanning
the channel mask (bytes 6-7 of the `io16` layout, bytes 12-13 of the `io64`
layout) and the sample data (from byte 8 resp. 14) into the caller's array;
`none` models the `return false` path in which the caller's array is not
touched. -/
def XBee_GetIOValues (xbp : XBeePacket) (inputs : List Nat) :
    Option (List Nat) :=
  if apiId xbp = XBEE_IO16 ∨ apiId xbp = XBEE_IO64 then
    let dataOff := if apiId xbp = XBEE_IO16 then 8 else 14
    let chInd := if apiId xbp = XBEE_IO16
                 then byteAt xbp 6 * 256 + byteAt xbp 7
                 else byteAt xbp 12 * 256 + byteAt xbp 13
    some ((List.range XBEE_INPUTS).foldl (ioSampleStep xbp)
      { inputs := inputs, digitalins := 0, pos := dataOff,
        chInd := chInd }).inputs
  else none

/-- Which output-parameter pointers of the I/O packet readers are
non-null. -/
structure IOFlags where
  srcAddress : Bool
  sigstrength : Bool
  options : Bool
  samples : Bool
deriving DecidableEq, Repr

/-- The caller's output locations for the I/O packet readers. -/
structure IOOuts where
  srcAddress : Nat
  sigstrength : Nat
  options : Nat
  samples : List Nat
deriving DecidableEq, Repr

/-- `XBee_ReadIO16Packet`: fails unless the kind tag is `XBEE_IO16`;
otherwise fills the non-null scalar outputs from the `io16` layout and, if
`samples` is non-null, extracts the sample array via `XBee_GetIOValues`
(whose failure propagates after the scalar outputs were already
written). -/
def XBee_ReadIO16Packet (xbp : XBeePacket) (f : IOFlags) (pre : IOOuts) :
    Bool × IOOuts :=
  if apiId xbp ≠ XBEE_IO16 then (false, pre)
  else
    let o : IOOuts :=
      { srcAddress := if f.srcAddress then byteAt xbp 1 * 256 + byteAt xbp 2
                      else pre.srcAddress,
        sigstrength := if f.sigstrength then byteAt xbp 3 else pre.sigstrength,
        options := if f.options then byteAt xbp 4 else pre.options,
        samples := pre.samples }
    if f.samples then
      match XBee_GetIOValues xbp pre.samples with
      | none => (false, o)
      | some s => (true, { o with samples := s })
    else (true, o)

/-- `XBee_ReadIO64Packet`, translated as written in the source: the kind
check compares against `XBEE_RX64` (not `XBEE_IO64`), then fills the
non-null scalar outputs from the `io64` layout (source at bytes 1-8 through
`addr64fold`, rssi at 9, options at 10) and, if `samples` is non-null,
calls `XBee_GetIOValues` (whose failure propagates after the scalar outputs
were already written). -/
def XBee_ReadIO64Packet (xbp : XBeePacket) (f : IOFlags) (pre : IOOuts) :
    Bool × IOOuts :=
  if apiId xbp ≠ XBEE_RX64 then (false, pre)
  else
    let o : IOOuts :=
      { srcAddress := if f.srcAddress then
                        addr64fold pre.srcAddress (fun i => byteAt xbp (1 + i))
                      else pre.srcAddress,
        sigstrength := if f.sigstrength then byteAt xbp 9 else pre.sigstrength,
        options := if f.options then byteAt xbp 10 else pre.options,
        samples := pre.samples }
    if f.samples then
      match XBee_GetIOValues xbp pre.samples with
      | none => (false, o)
      | some s => (true, { o with samples := s })
    else (true, o)

/-- Which output-parameter pointers of `XBee_ReadAtResponsePacket` are
non-null. -/
structure AtRespFlags where
  frameID : Bool
  command : Bool
  status : Bool
  data : Bool
deriving DecidableEq, Repr

/-- The caller's output locations for `XBee_ReadAtResponsePacket`
(`command` is the two-byte buffer the caller's `char*` refers to). -/
structure AtRespOuts where
  frameID : Nat
  command : List Nat
  status : Nat
  data : List Nat
deriving DecidableEq, Repr

/-- `XBee_ReadAtResponsePacket`: fails unless the kind tag is
`XBEE_ATCOMMANDRESPONSE`; otherwise fills frameID (byte 1), status (byte 4)
and data (from byte 5).  The source's `command = (char*)xbp->atResponse.command`
reassigns the local copy of the `command` pointer and never stores through
it, so the caller's command bytes are returned unchanged. -/
def XBee_ReadAtResponsePacket (xbp : XBeePacket) (f : AtRespFlags)
    (pre : AtRespOuts) : Bool × AtRespOuts :=
  if apiId xbp ≠ XBEE_ATCOMMANDRESPONSE then (false, pre)
  else
    (true,
     { frameID := if f.frameID then byteAt xbp 1 else pre.frameID,
       command := pre.command,
       status := if f.status then byteAt xbp 4 else pre.status,
       data := if f.data then (xbp.buf.drop 5).map (· % 256) else pre.data })

/-- Which output-parameter pointers of `XBee_ReadTXStatusPacket` are
non-null. -/
structure TXStatFlags where
  frameID : Bool
  status : Bool
deriving DecidableEq, Repr

/-- The caller's output locations for `XBee_ReadTXStatusPacket`. -/
structure TXStatOuts where
  frameID : Nat
  status : Nat
deriving DecidableEq, Repr

/-- `XBee_ReadTXStatusPacket`: fails unless the kind tag is `XBEE_TXSTATUS`;
otherwise fills frameID (byte 1) and status (byte 2) when non-null. -/
def XBee_ReadTXStatusPacket (xbp : XBeePacket) (f : TXStatFlags)
    (pre : TXStatOuts) : Bool × TXStatOuts :=
  if apiId xbp ≠ XBEE_TXSTATUS then (false, pre)
  else
    (true,
     { frameID := if f.frameID then byteAt xbp 1 else pre.frameID,
       status := if f.status then byteAt xbp 2 else pre.status })

/-- An observable action of the configuration helper on its collaborators:
a transport write of a byte string, or a scheduler suspension of the calling
task for a number of milliseconds. -/
inductive SerialEvent where
  | write (bytes : List Nat)
  | sleep (ms : Nat)
deriving DecidableEq, Repr

/-- The ASCII escape sequence `+++`. -/
def escapeSeq : List Nat := [0x2B, 0x2B, 0x2B]

/-- The ASCII bytes of `ATAP 1,CN\r` produced by
`snprintf( buf, 50, "ATAP %x,CN\r", 1 )`. -/
def atapCommand : List Nat :=
  [0x41, 0x54, 0x41, 0x50, 0x20, 0x31, 0x2C, 0x43, 0x4E, 0x0D]

/-- `XBeeConfig_SetPacketApiMode` as the trace of its transport and
scheduler actions: write `+++`, `Sleep( 1025 )`, then write the
carriage-return-terminated mode-change command. -/
def XBeeConfig_SetPacketApiMode : List SerialEvent :=
  [.write escapeSeq, .sleep 1025, .write atapCommand]

/-! ## Step characterization lemmas -/

/-- A start byte arriving in any state other than `AWAIT_START` resets the
packet and restarts framing at the first length state. -/
theorem stepByte_resync (p : XBeePacket) (h : p.rxState ≠ .start) :
    stepByte p XBEE_PACKET_STARTBYTE =
      ({ XBee_ResetPacket p with rxState := .length1 }, none) := by
  simp [stepByte, XBee_ResetPacket, h]

/-- A start byte in `AWAIT_START` moves to the first length state. -/
theorem stepByte_start_sb (p : XBeePacket) (h : p.rxState = .start) :
    stepByte p XBEE_PACKET_STARTBYTE = ({ p with rxState := .length1 }, none) := by
  simp [stepByte, h]

/-- A non-start byte in `AWAIT_START` is discarded. -/
theorem stepByte_start_other (p : XBeePacket) (c : Nat) (h : p.rxState = .start)
    (hc : c ≠ XBEE_PACKET_STARTBYTE) : stepByte p c = (p, none) := by
  simp [stepByte, h, hc]

/-- A non-start byte in the first length state becomes the high length byte. -/
theorem stepByte_length1 (p : XBeePacket) (c : Nat) (h : p.rxState = .length1)
    (hc : c ≠ XBEE_PACKET_STARTBYTE) :
    stepByte p c = ({ p with length := c * 256, rxState := .length2 }, none) := by
  simp [stepByte, h, hc]

/-- A non-start byte in the second length state completes the length
(with the capacity clamp) and enters the payload state. -/
theorem stepByte_length2 (p : XBeePacket) (c : Nat) (h : p.rxState = .length2)
    (hc : c ≠ XBEE_PACKET_STARTBYTE) :
    stepByte p c =
      ({ p with length := if p.length + c > XBEE_MAX_PACKET_SIZE
                          then XBEE_MAX_PACKET_SIZE else p.length + c,
                rxState := .payload }, none) := by
  simp [stepByte, h, hc]

/-- A non-start byte in the payload state is appended at the write cursor
and counted, moving to the checksum state when the declared length is
reached. -/
theorem stepByte_payload (p : XBeePacket) (c : Nat) (h : p.rxState = .payload)
    (hc : c ≠ XBEE_PACKET_STARTBYTE) :
    stepByte p c =
      ({ p with buf := p.buf.set p.dataPtr (c % 256),
                dataPtr := p.dataPtr + 1,
                index := p.index + 1,
                rxState := if p.index + 1 ≥ p.length then .crc else .payload,
                crc := (p.crc + c) % 256 }, none) := by
  simp [stepByte, h, hc]

/-- A matching checksum byte completes the packet: state returns to
`AWAIT_START` and the call reports a ready packet. -/
theorem stepByte_crc_ok (p : XBeePacket) (c : Nat) (h : p.rxState = .crc)
    (hc : c ≠ XBEE_PACKET_STARTBYTE) (hok : (p.crc + c) % 256 = 0xFF) :
    stepByte p c = ({ p with crc := 0xFF, rxState := .start }, some true) := by
  simp [stepByte, h, hc, hok]

/-- A mismatching checksum byte resets the packet (hence state
`AWAIT_START`) and the call reports no packet. -/
theorem stepByte_crc_fail (p : XBeePacket) (c : Nat) (h : p.rxState = .crc)
    (hc : c ≠ XBEE_PACKET_STARTBYTE) (hbad : (p.crc + c) % 256 ≠ 0xFF) :
    stepByte p c = (XBee_ResetPacket p, some false) := by
  simp [stepByte, h, hc, hbad, XBee_ResetPacket]

/-- Unfolding `XBee_GetPacket` over a consumed byte. -/
theorem getPacket_cons_none {p p2 : XBeePacket} {c : Nat} {rest : List Nat}
    (h : stepByte p c = (p2, none)) :
    XBee_GetPacket p (c :: rest) = XBee_GetPacket p2 rest := by
  simp [XBee_GetPacket, h]

/-- Unfolding `XBee_GetPacket` over a byte on which the call returns. -/
theorem getPacket_cons_some {p p2 : XBeePacket} {c : Nat} {b : Bool}
    {rest : List Nat} (h : stepByte p c = (p2, some b)) :
    XBee_GetPacket p (c :: rest) = (p2, rest, some b) := by
  simp [XBee_GetPacket, h]

/-! ## Buffer splicing lemmas -/

/-- `setSeq` over an appended chunk splits into two sequential passes. -/
theorem setSeq_append (cs ds : List Nat) : ∀ (l : List Nat) (i : Nat),
    setSeq l i (cs ++ ds) = setSeq (setSeq l i cs) (i + cs.length) ds := by
  induction cs with
  | nil => intro l i; simp [setSeq]
  | cons c cs ih =>
    intro l i
    simp only [List.cons_append, setSeq, List.length_cons, List.append_eq]
    rw [ih, show i + 1 + cs.length = i + (cs.length + 1) from by omega]

/-- Sequential in-range stores splice the stored bytes (reduced mod 256)
into the image. -/
theorem setSeq_spec (cs : List Nat) : ∀ (l : List Nat) (i : Nat),
    i + cs.length ≤ l.length →
    setSeq l i cs =
      l.take i ++ cs.map (· % 256) ++ l.drop (i + cs.length) := by
  induction cs with
  | nil => intro l i _; simp [setSeq]
  | cons c cs ih =>
    intro l i h
    have hi : i < l.length := by simp only [List.length_cons] at h; omega
    simp only [setSeq]
    rw [ih (l.set i (c % 256)) (i + 1)
        (by rw [List.length_set]; simp only [List.length_cons] at h; omega)]
    rw [List.set_eq_take_cons_drop (c % 256) hi]
    have hTlen : (l.take i).length = i := by rw [List.length_take]; omega
    have htake : (l.take i ++ (c % 256) :: l.drop (i + 1)).take (i + 1) =
        l.take i ++ [c % 256] := by
      rw [show i + 1 = (l.take i).length + 1 from by omega, List.take_append]
      rfl
    have hdrop : (l.take i ++ (c % 256) :: l.drop (i + 1)).drop (i + 1 + cs.length) =
        l.drop (i + 1 + cs.length) := by
      conv_lhs => rw [show i + 1 + cs.length = (l.take i).length + (1 + cs.length)
        from by omega]
      rw [List.drop_append, Nat.add_comm 1 cs.length, List.drop_succ_cons,
          List.drop_drop]
    rw [htake, hdrop]
    simp only [List.length_cons, List.map_cons]
    rw [show i + 1 + cs.length = i + (cs.length + 1) from by omega]
    simp [List.append_assoc]

/-- `setSeq` preserves the image length. -/
theorem setSeq_length (cs : List Nat) : ∀ (l : List Nat) (i : Nat),
    (setSeq l i cs).length = l.length := by
  induction cs with
  | nil => intro l i; simp [setSeq]
  | cons c cs ih => intro l i; simp [setSeq, ih, List.length_set]

/-! ## Frame decoding lemmas -/

/-- The fully decoded packet left by receiving a frame with payload `p` into
a packet whose image was `b`: payload spliced in from offset 0, checksum
total `0xFF`, state back at `AWAIT_START`, `length`, `index` and write
cursor all at the payload length. -/
def frameFinal (b p : List Nat) : XBeePacket :=
  { buf := setSeq b 0 p, crc := 0xFF, rxState := .start,
    length := p.length, index := p.length, dataPtr := p.length }

/-- Consuming a full payload in the payload state: the bytes are spliced in
at the write cursor, counted, summed into the checksum, and the state moves
to the checksum state. -/
theorem run_payload_full (cs : List Nat) : ∀ (s : XBeePacket) (rest : List Nat),
    s.rxState = .payload → (∀ c ∈ cs, c ≠ XBEE_PACKET_STARTBYTE) →
    cs ≠ [] → s.index + cs.length = s.length → s.crc < 256 →
    XBee_GetPacket s (cs ++ rest) =
      XBee_GetPacket
        { s with buf := setSeq s.buf s.dataPtr cs,
                 dataPtr := s.dataPtr + cs.length,
                 index := s.index + cs.length,
                 rxState := .crc,
                 crc := (s.crc + cs.sum) % 256 } rest := by
  induction cs with
  | nil => intro s rest _ _ hne _ _; exact absurd rfl hne
  | cons c cs ih =>
    intro s rest h hc hne hlen hcrc
    have hcne : c ≠ XBEE_PACKET_STARTBYTE := hc c (List.mem_cons_self c cs)
    cases cs with
    | nil =>
      have hend : s.index + 1 ≥ s.length := by
        simp only [List.length_cons, List.length_nil] at hlen; omega
      have hstep : stepByte s c =
          ({ s with buf := s.buf.set s.dataPtr (c % 256),
                    dataPtr := s.dataPtr + 1,
                    index := s.index + 1,
                    rxState := .crc,
                    crc := (s.crc + c) % 256 }, none) := by
        rw [stepByte_payload s c h hcne, if_pos hend]
      rw [List.cons_append, List.nil_append, getPacket_cons_none hstep]
      congr 1
    | cons d ds =>
      have hmid : ¬ (s.index + 1 ≥ s.length) := by
        simp only [List.length_cons] at hlen; omega
      have hstep : stepByte s c =
          ({ s with buf := s.buf.set s.dataPtr (c % 256),
                    dataPtr := s.dataPtr + 1,
                    index := s.index + 1,
                    rxState := .payload,
                    crc := (s.crc + c) % 256 }, none) := by
        rw [stepByte_payload s c h hcne, if_neg hmid]
      rw [List.cons_append, getPacket_cons_none hstep]
      rw [ih _ rest rfl (fun d hd => hc d (List.mem_cons_of_mem c hd))
          (by simp) (by simp only [List.length_cons] at hlen ⊢; omega)
          (Nat.mod_lt _ (by norm_num))]
      congr 1
      simp only [setSeq, List.length_cons, List.sum_cons, XBeePacket.mk.injEq]
      refine ⟨trivial, ?_, trivial, trivial, by omega, by omega⟩
      rw [Nat.mod_add_mod, Nat.add_assoc]

/-- A matching checksum byte in the checksum state completes the call. -/
theorem run_crc_ok (s : XBeePacket) (c : Nat) (rest : List Nat)
    (h : s.rxState = .crc) (hc : c ≠ XBEE_PACKET_STARTBYTE)
    (hok : (s.crc + c) % 256 = 0xFF) :
    XBee_GetPacket s (c :: rest) =
      ({ s with crc := 0xFF, rxState := .start }, rest, some true) :=
  getPacket_cons_some (stepByte_crc_ok s c h hc hok)

/-- Receiving the length bytes, payload and correct checksum of a frame with
payload `p` (no embedded start bytes, checksum byte not the start byte,
1 ≤ payload length ≤ capacity) from the state right after the start byte
fully decodes the frame. -/
theorem run_frame_core (b p : List Nat) (h1 : 1 ≤ p.length)
    (h2 : p.length ≤ XBEE_MAX_PACKET_SIZE)
    (hc : ∀ c ∈ p, c ≠ XBEE_PACKET_STARTBYTE)
    (hck : 0xFF - p.sum % 256 ≠ XBEE_PACKET_STARTBYTE) :
    XBee_GetPacket
        { buf := b, crc := 0, rxState := .length1, length := 0, index := 0,
          dataPtr := 0 }
        ((p.length / 256 % 256) :: (p.length % 256) :: p ++ [0xFF - p.sum % 256]) =
      (frameFinal b p, [], some true) := by
  have h100 : XBEE_MAX_PACKET_SIZE = 100 := rfl
  rw [h100] at h2
  have hSB : XBEE_PACKET_STARTBYTE = 126 := rfl
  have hhi : p.length / 256 % 256 = 0 := by omega
  have hlo : p.length % 256 = p.length := by omega
  rw [hhi, hlo]
  simp only [List.cons_append]
  have hstep1 : stepByte
      { buf := b, crc := 0, rxState := .length1, length := 0, index := 0,
        dataPtr := 0 } 0 =
      ({ buf := b, crc := 0, rxState := .length2, length := 0 * 256, index := 0,
         dataPtr := 0 }, none) := by
    rw [stepByte_length1 _ 0 rfl (by rw [hSB]; omega)]
  rw [getPacket_cons_none hstep1]
  have hstep2 : stepByte
      { buf := b, crc := 0, rxState := .length2, length := 0 * 256, index := 0,
        dataPtr := 0 } p.length =
      ({ buf := b, crc := 0, rxState := .payload, length := p.length, index := 0,
         dataPtr := 0 }, none) := by
    rw [stepByte_length2 _ p.length rfl (by rw [hSB]; omega)]
    rw [if_neg (show ¬ (0 * 256 + p.length > XBEE_MAX_PACKET_SIZE) from by
      rw [h100]; omega)]
    simp [XBeePacket.mk.injEq]
  rw [getPacket_cons_none hstep2]
  rw [run_payload_full p _ _ rfl hc
      (by intro hnil; rw [hnil] at h1; simp at h1)
      (show 0 + p.length = p.length from by omega)
      (show (0 : Nat) < 256 from by norm_num)]
  show XBee_GetPacket
      { buf := setSeq b 0 p, crc := (0 + p.sum) % 256, rxState := .crc,
        length := p.length, index := 0 + p.length, dataPtr := 0 + p.length }
      [0xFF - p.sum % 256] = (frameFinal b p, [], some true)
  have hok : (((0 : Nat) + p.sum) % 256 + (0xFF - p.sum % 256)) % 256 = 0xFF := by
    have hm : p.sum % 256 < 256 := Nat.mod_lt _ (by norm_num)
    rw [Nat.mod_add_mod]
    omega
  rw [run_crc_ok _ _ _ rfl hck hok]
  simp [frameFinal, Prod.mk.injEq, XBeePacket.mk.injEq, Nat.zero_add]

/-- Feeding a whole well-formed frame (payload without embedded start bytes,
checksum byte not the start byte, length within capacity) to a freshly reset
packet decodes it completely: the call reports a ready packet, consumes
exactly the frame, and leaves the payload spliced into the image. -/
theorem run_frame (b p : List Nat) (h1 : 1 ≤ p.length)
    (h2 : p.length ≤ XBEE_MAX_PACKET_SIZE)
    (hc : ∀ c ∈ p, c ≠ XBEE_PACKET_STARTBYTE)
    (hck : 0xFF - p.sum % 256 ≠ XBEE_PACKET_STARTBYTE) :
    XBee_GetPacket
        { buf := b, crc := 0, rxState := .start, length := 0, index := 0,
          dataPtr := 0 } (frameBytes p) =
      (frameFinal b p, [], some true) := by
  simp only [frameBytes, List.cons_append]
  have hstep0 : stepByte
      { buf := b, crc := 0, rxState := .start, length := 0, index := 0,
        dataPtr := 0 } XBEE_PACKET_STARTBYTE =
      ({ buf := b, crc := 0, rxState := .length1, length := 0, index := 0,
         dataPtr := 0 }, none) := by
    rw [stepByte_start_sb _ rfl]
  rw [getPacket_cons_none hstep0]
  exact run_frame_core b p h1 h2 hc hck

/-- After a mid-frame start-byte abort (reset packet parked in the first
length state), a following complete well-formed frame is still decoded. -/
theorem run_frame_after_abort (s : XBeePacket) (p : List Nat)
    (h1 : 1 ≤ p.length) (h2 : p.length ≤ XBEE_MAX_PACKET_SIZE)
    (hc : ∀ c ∈ p, c ≠ XBEE_PACKET_STARTBYTE)
    (hck : 0xFF - p.sum % 256 ≠ XBEE_PACKET_STARTBYTE) :
    XBee_GetPacket { XBee_ResetPacket s with rxState := .length1 }
        (frameBytes p) =
      (frameFinal (s.buf.set 0 0) p, [], some true) := by
  show XBee_GetPacket
      { buf := s.buf.set 0 0, crc := 0, rxState := .length1, length := 0,
        index := 0, dataPtr := 0 } (frameBytes p) = _
  simp only [frameBytes, List.cons_append]
  have hstep0 : stepByte
      { buf := s.buf.set 0 0, crc := 0, rxState := .length1, length := 0,
        index := 0, dataPtr := 0 } XBEE_PACKET_STARTBYTE =
      ({ buf := s.buf.set 0 0, crc := 0, rxState := .length1, length := 0,
         index := 0, dataPtr := 0 }, none) := by
    rw [stepByte_resync _ (by simp)]
    simp [XBee_ResetPacket, XBeePacket.mk.injEq, List.set_set]
  rw [getPacket_cons_none hstep0]
  exact run_frame_core (s.buf.set 0 0) p h1 h2 hc hck

/-- The receiver driven one byte per call: each call offers the transport's
single available byte to `XBee_GetPacket` (which then consumes it and runs
dry); the packet is carried from call to call without resetting, and the
last call's result is returned. -/
def XBee_GetPacketBytewise : XBeePacket → List Nat → XBeePacket × Option Bool
  | p, [] => (p, none)
  | p, [c] => ((stepByte p c).1, (stepByte p c).2)
  | p, c :: d :: rest => XBee_GetPacketBytewise (stepByte p c).1 (d :: rest)

/-- When a single call consumes a byte list completely, feeding the same
bytes one per call (without resetting in between) reaches the same packet
and the same final result. -/
theorem bytewise_eq_run (xs : List Nat) : ∀ (p q : XBeePacket)
    (r : Option Bool), XBee_GetPacket p xs = (q, [], r) →
    XBee_GetPacketBytewise p xs = (q, r) := by
  induction xs with
  | nil =>
    intro p q r h
    simp only [XBee_GetPacket] at h
    injection h with h1 h2
    injection h2 with h3 h4
    simp only [XBee_GetPacketBytewise]
    rw [h1, ← h4]
  | cons c rest ih =>
    intro p q r h
    cases rest with
    | nil =>
      simp only [XBee_GetPacketBytewise]
      rcases hs : stepByte p c with ⟨p2, o⟩
      cases o with
      | none =>
        rw [getPacket_cons_none hs] at h
        simp only [XBee_GetPacket] at h
        injection h with h1 h2
        injection h2 with h3 h4
        rw [h1, ← h4]
      | some b =>
        rw [getPacket_cons_some hs] at h
        injection h with h1 h2
        injection h2 with h3 h4
        rw [h1, ← h4]
    | cons d ds =>
      rcases hs : stepByte p c with ⟨p2, o⟩
      cases o with
      | none =>
        rw [getPacket_cons_none hs] at h
        have := ih p2 q r h
        simp only [XBee_GetPacketBytewise, hs]
        exact this
      | some b =>
        rw [getPacket_cons_some hs] at h
        injection h with h1 h2
        injection h2 with h3 h4
        exact absurd h3 (List.cons_ne_nil d ds)

/-! ## Receiver safety invariant -/

/-- The receiver invariant maintained between bytes of a frame: the write
cursor tracks the byte count, the count never exceeds the capacity, the
count is zero before the payload phase, and during the payload phase the
count stays below the (clamped) declared length. -/
def RxInv (s : XBeePacket) : Prop :=
  s.dataPtr = s.index ∧ s.index ≤ XBEE_MAX_PACKET_SIZE ∧
  ((s.rxState = .start ∨ s.rxState = .length1 ∨ s.rxState = .length2) →
    s.index = 0) ∧
  (s.rxState = .payload →
    (s.index < s.length ∧ s.length ≤ XBEE_MAX_PACKET_SIZE) ∨
    (s.index = 0 ∧ s.length = 0))

/-- A freshly reset packet satisfies the receiver invariant. -/
theorem rxInv_reset (s : XBeePacket) : RxInv (XBee_ResetPacket s) := by
  refine ⟨rfl, by norm_num [XBee_ResetPacket, XBEE_MAX_PACKET_SIZE], fun _ => rfl,
    fun hpay => ?_⟩
  simp [XBee_ResetPacket] at hpay

/-- One receiver step preserves the invariant while consuming, keeps the
write cursor within the capacity in every case, and never touches the image
beyond the capacity. -/
theorem stepByte_inv (s : XBeePacket) (c : Nat) (h : RxInv s) :
    ((stepByte s c).2 = none → RxInv (stepByte s c).1) ∧
    (stepByte s c).1.dataPtr ≤ XBEE_MAX_PACKET_SIZE ∧
    (stepByte s c).1.buf.drop XBEE_MAX_PACKET_SIZE =
      s.buf.drop XBEE_MAX_PACKET_SIZE := by
  obtain ⟨hdp, hle, hzero, hpay⟩ := h
  have h100 : XBEE_MAX_PACKET_SIZE = 100 := rfl
  rw [h100] at hle
  have hdrop0 : (s.buf.set 0 0).drop 100 = s.buf.drop 100 := by
    rw [List.drop_set, if_pos (by omega)]
  by_cases hc : c = XBEE_PACKET_STARTBYTE
  · subst hc
    by_cases hst : s.rxState = RxState.start
    · rw [stepByte_start_sb s hst]
      have hz := hzero (Or.inl hst)
      simp only [RxInv, h100]
      exact ⟨fun _ => ⟨hdp, by omega, fun _ => hz, fun hp => by simp at hp⟩,
        by omega, trivial⟩
    · rw [stepByte_resync s hst]
      simp only [RxInv, XBee_ResetPacket, h100]
      exact ⟨fun _ => ⟨trivial, by omega, fun _ => trivial, fun hp => by simp at hp⟩,
        by omega, hdrop0⟩
  · rcases hst : s.rxState with _ | _ | _ | _ | _
    · rw [stepByte_start_other s c hst hc]
      simp only [RxInv, h100]
      exact ⟨fun _ => ⟨hdp, by omega, hzero, hpay⟩, by omega, trivial⟩
    · rw [stepByte_length1 s c hst hc]
      have hz := hzero (Or.inr (Or.inl hst))
      simp only [RxInv, h100]
      exact ⟨fun _ => ⟨hdp, by omega, fun _ => hz, fun hp => by simp at hp⟩,
        by omega, trivial⟩
    · rw [stepByte_length2 s c hst hc]
      have hz := hzero (Or.inr (Or.inr hst))
      simp only [RxInv, h100]
      refine ⟨fun _ => ⟨hdp, by omega, ?_, ?_⟩, by omega, trivial⟩
      · intro hx
        simp at hx
      · intro _
        split <;> omega
    · rw [stepByte_payload s c hst hc]
      have hor := hpay hst
      rw [h100] at hor
      have hwr : s.dataPtr < 100 := by omega
      simp only [RxInv, h100]
      refine ⟨fun _ => ⟨by omega, by omega, ?_, ?_⟩, by omega, ?_⟩
      · split
        · intro hx; simp at hx
        · intro hx; simp at hx
      · split
        · intro hx; simp at hx
        · intro _; omega
      · rw [List.drop_set, if_pos hwr]
    · by_cases hok : (s.crc + c) % 256 = 0xFF
      · rw [stepByte_crc_ok s c hst hc hok]
        simp only [RxInv, h100]
        exact ⟨fun hx => by simp at hx, by omega, trivial⟩
      · rw [stepByte_crc_fail s c hst hc hok]
        simp only [RxInv, XBee_ResetPacket, h100]
        exact ⟨fun _ => ⟨trivial, by omega, fun _ => trivial, fun hp => by simp at hp⟩,
          by omega, hdrop0⟩

/-- Over any byte stream, a receiver started in an invariant state keeps its
write cursor within the capacity and never touches the image beyond the
capacity. -/
theorem getPacket_inv (xs : List Nat) : ∀ (s : XBeePacket), RxInv s →
    (XBee_GetPacket s xs).1.dataPtr ≤ XBEE_MAX_PACKET_SIZE ∧
    (XBee_GetPacket s xs).1.buf.drop XBEE_MAX_PACKET_SIZE =
      s.buf.drop XBEE_MAX_PACKET_SIZE := by
  induction xs with
  | nil =>
    intro s hs
    obtain ⟨hdp, hle, _, _⟩ := hs
    exact ⟨by simp only [XBee_GetPacket]; omega, by simp only [XBee_GetPacket]⟩
  | cons c rest ih =>
    intro s hs
    have hstep := stepByte_inv s c hs
    rcases hq : stepByte s c with ⟨p2, o⟩
    rw [hq] at hstep
    cases o with
    | none =>
      rw [getPacket_cons_none hq]
      have h2 := ih p2 (hstep.1 rfl)
      exact ⟨h2.1, h2.2.trans hstep.2.2⟩
    | some b =>
      rw [getPacket_cons_some hq]
      exact ⟨hstep.2.1, hstep.2.2⟩

/-! ## Concrete packets used in the claim theorems -/

/-- Pad a byte image to the fixed 110-byte packet image size. -/
def padTo (l : List Nat) : List Nat := l ++ List.replicate (110 - l.length) 0

/-- An all-zero packet image. -/
def emptyImage : List Nat := List.replicate 110 0

/-- All five output pointers of an RX reader non-null. -/
def allRXFlags : RXFlags := ⟨true, true, true, true, true⟩

/-- Zero-initialized caller locations for an RX reader. -/
def zeroRXOuts : RXOuts := ⟨0, 0, 0, [], 0⟩

/-- All four output pointers of an I/O reader non-null. -/
def allIOFlags : IOFlags := ⟨true, true, true, true⟩

/-- Only the scalar output pointers of an I/O reader non-null
(`samples` passed as NULL). -/
def scalarIOFlags : IOFlags := ⟨true, true, true, false⟩

/-- Caller locations for an I/O reader with the sample array pre-filled
with junk values. -/
def presetIOOuts : IOOuts := ⟨0, 0, 0, List.replicate 9 7⟩

/-- A populated 64-bit receive packet: source address
`0x0102030405060708`, rssi `0x28`, options `0x40`, two data bytes. -/
def rx64SamplePacket : XBeePacket :=
  mkFresh (padTo [0x80, 1, 2, 3, 4, 5, 6, 7, 8, 0x28, 0x40, 65, 66])

/-- A 64-bit I/O sample packet (kind tag `XBEE_IO64`), one sample, channel
mask `0x0005`, digital word `0x0005`. -/
def io64SamplePacket : XBeePacket :=
  mkFresh (padTo [0x82, 1, 2, 3, 4, 5, 6, 7, 8, 40, 0, 1, 0, 5, 0, 5])

/-- A 16-bit I/O sample packet: source `0x1234`, rssi 40, options 0, one
sample, channel mask `0x0005` (digital pins 0 and 2 enabled), digital
sample word `0x0005` (both high). -/
def io16SamplePacket : XBeePacket :=
  mkFresh (padTo [0x83, 0x12, 0x34, 40, 0, 1, 0, 5, 0, 5])

/-! ## Claim theorems -/

/-- C1: the round-trip property fails on the code at a concrete input, and
the code (not the claim) is at fault.  Serializing the populated 64-bit
receive packet `rx64SamplePacket` (source address `0x0102030405060708`)
with `XBee_SendPacket` and feeding the emitted bytes into `XBee_GetPacket`
on a freshly reset packet does complete with all bytes consumed, and
`XBee_ReadRX64Packet` accepts the result and recovers the options, rssi
and data bytes — but the recovered 64-bit source address is
`0x0700000000000008`, not the original `0x0102030405060708`: the
accumulation loop `*srcAddress <<= i*8` shifts by `i*8` instead of 8, so
the first six source bytes are shifted out of the 64-bit word. -/
theorem xbee_c1_rx64_roundtrip_address_bug :
    (XBee_GetPacket (XBee_ResetPacket (mkFresh emptyImage))
        (XBee_SendPacket rx64SamplePacket 2)).2.2 = some true ∧
    (XBee_GetPacket (XBee_ResetPacket (mkFresh emptyImage))
        (XBee_SendPacket rx64SamplePacket 2)).2.1 = [] ∧
    (XBee_ReadRX64Packet
        (XBee_GetPacket (XBee_ResetPacket (mkFresh emptyImage))
          (XBee_SendPacket rx64SamplePacket 2)).1
        allRXFlags zeroRXOuts).1 = true ∧
    (XBee_ReadRX64Packet
        (XBee_GetPacket (XBee_ResetPacket (mkFresh emptyImage))
          (XBee_SendPacket rx64SamplePacket 2)).1
        allRXFlags zeroRXOuts).2.sigstrength = 0x28 ∧
    (XBee_ReadRX64Packet
        (XBee_GetPacket (XBee_ResetPacket (mkFresh emptyImage))
          (XBee_SendPacket rx64SamplePacket 2)).1
        allRXFlags zeroRXOuts).2.options = 0x40 ∧
    (XBee_ReadRX64Packet
        (XBee_GetPacket (XBee_ResetPacket (mkFresh emptyImage))
          (XBee_SendPacket rx64SamplePacket 2)).1
        allRXFlags zeroRXOuts).2.datalength = 2 ∧
    ((XBee_ReadRX64Packet
        (XBee_GetPacket (XBee_ResetPacket (mkFresh emptyImage))
          (XBee_SendPacket rx64SamplePacket 2)).1
        allRXFlags zeroRXOuts).2.data.take 2 = [65, 66]) ∧
    (XBee_ReadRX64Packet
        (XBee_GetPacket (XBee_ResetPacket (mkFresh emptyImage))
          (XBee_SendPacket rx64SamplePacket 2)).1
        allRXFlags zeroRXOuts).2.srcAddress = 0x0700000000000008 ∧
    (0x0700000000000008 : Nat) ≠ 0x0102030405060708 := by
  decide

/-- C3: the typed decode functions are claimed to return true exactly on a
matching kind tag and to leave outputs untouched on failure; the code
violates this in `XBee_ReadIO64Packet`, whose kind check compares against
`XBEE_RX64` instead of `XBEE_IO64`: it rejects a genuine `XBEE_IO64`
packet, accepts an `XBEE_RX64` packet when `samples` is NULL, and on an
`XBEE_RX64` packet with `samples` non-null it returns false after having
already written the srcAddress output. -/
theorem xbee_c3_readio64_kind_check_bug :
    apiId io64SamplePacket = XBEE_IO64 ∧
    (XBee_ReadIO64Packet io64SamplePacket allIOFlags presetIOOuts).1 = false ∧
    apiId rx64SamplePacket = XBEE_RX64 ∧
    (XBee_ReadIO64Packet rx64SamplePacket scalarIOFlags presetIOOuts).1 = true ∧
    (XBee_ReadIO64Packet rx64SamplePacket allIOFlags presetIOOuts).1 = false ∧
    (XBee_ReadIO64Packet rx64SamplePacket allIOFlags presetIOOuts).2.srcAddress ≠
      presetIOOuts.srcAddress := by
  decide

/-- C7: decoding the 16-bit I/O sample packet whose channel mask enables
only digital pins 0 and 2, both sampled high, through
`XBee_ReadIO16Packet` fills the caller's 9-entry array with 1023 at
indices 0 and 2 and 0 everywhere else (overwriting the previous
contents). -/
theorem xbee_c7_io16_digital_scenario :
    byteAt io16SamplePacket 6 * 256 + byteAt io16SamplePacket 7 = 5 ∧
    (XBee_ReadIO16Packet io16SamplePacket allIOFlags presetIOOuts).1 = true ∧
    (XBee_ReadIO16Packet io16SamplePacket allIOFlags presetIOOuts).2.samples =
      [1023, 0, 1023, 0, 0, 0, 0, 0, 0] := by
  decide

/-- C8: `XBeeConfig_SetPacketApiMode` writes the literal ASCII escape
sequence `+++` to the transport, then suspends the calling task for 1025
milliseconds (at least the 1000 required), and only then writes the
carriage-return-terminated mode-change command; its action trace contains
no transport write between the escape write and the suspension. -/
theorem xbee_c8_command_mode_guard :
    XBeeConfig_SetPacketApiMode =
      [SerialEvent.write escapeSeq, SerialEvent.sleep 1025,
       SerialEvent.write atapCommand] ∧
    escapeSeq = [0x2B, 0x2B, 0x2B] ∧
    1000 ≤ 1025 ∧
    atapCommand.getLast? = some 0x0D := by
  decide

/-- A populated 64-bit transmit packet with no data bytes. -/
def tx64EmptyPacket : XBeePacket := mkFresh (padTo [0x00, 9, 0, 0, 0, 0, 0, 0, 0, 0, 0])

/-- C2: for every packet and caller-declared data length (within the
16-bit length field), `XBee_SendPacket` emits the start byte followed by
two big-endian bytes whose value is the declared payload length
`sendSize (apiId p) d`, and that length is `d + 11` for the 64-bit
transmit/receive kinds, `d + 5` for the 16-bit transmit/receive kinds and
the AT command response kind, `d + 4` for the AT command kinds (with or
without response requested), exactly 3 for transmit-status regardless of
`d`, and 0 for any other kind; in particular a 64-bit transmit packet with
0 data bytes declares exactly 11. -/
theorem xbee_c2_declared_payload_length (p : XBeePacket) (d : Nat)
    (hd : d + 11 ≤ 65535) :
    (XBee_SendPacket p d).getD 0 0 = XBEE_PACKET_STARTBYTE ∧
    (XBee_SendPacket p d).getD 1 0 * 256 + (XBee_SendPacket p d).getD 2 0 =
      sendSize (apiId p) d ∧
    ((apiId p = XBEE_TX64 ∨ apiId p = XBEE_RX64) →
      sendSize (apiId p) d = d + 11) ∧
    ((apiId p = XBEE_TX16 ∨ apiId p = XBEE_RX16 ∨
        apiId p = XBEE_ATCOMMANDRESPONSE) →
      sendSize (apiId p) d = d + 5) ∧
    ((apiId p = XBEE_ATCOMMAND ∨ apiId p = XBEE_ATCOMMANDQ) →
      sendSize (apiId p) d = d + 4) ∧
    (apiId p = XBEE_TXSTATUS → sendSize (apiId p) d = 3) ∧
    (apiId p ∉ [XBEE_TX64, XBEE_RX64, XBEE_TX16, XBEE_RX16,
        XBEE_ATCOMMANDRESPONSE, XBEE_TXSTATUS, XBEE_ATCOMMAND,
        XBEE_ATCOMMANDQ] →
      sendSize (apiId p) d = 0) ∧
    (apiId p = XBEE_TX64 →
      (XBee_SendPacket p 0).getD 1 0 * 256 + (XBee_SendPacket p 0).getD 2 0 =
        11) := by
  have hsz : ∀ d2 : Nat, d2 + 11 ≤ 65535 → sendSize (apiId p) d2 ≤ 65535 := by
    intro d2 h2
    unfold sendSize
    split_ifs <;> omega
  have hget : ∀ d2 : Nat,
      (XBee_SendPacket p d2).getD 0 0 = XBEE_PACKET_STARTBYTE ∧
      (XBee_SendPacket p d2).getD 1 0 = sendSize (apiId p) d2 / 256 % 256 ∧
      (XBee_SendPacket p d2).getD 2 0 = sendSize (apiId p) d2 % 256 := by
    intro d2
    unfold XBee_SendPacket
    refine ⟨rfl, rfl, rfl⟩
  refine ⟨(hget d).1, ?_, ?_, ?_, ?_, ?_, ?_, ?_⟩
  · rw [(hget d).2.1, (hget d).2.2]
    have := hsz d hd
    omega
  · intro h
    rcases h with h | h <;>
      simp [sendSize, h, XBEE_TX64, XBEE_RX64, XBEE_TX16, XBEE_RX16,
        XBEE_ATCOMMANDRESPONSE, XBEE_TXSTATUS, XBEE_ATCOMMAND, XBEE_ATCOMMANDQ]
  · intro h
    rcases h with h | h | h <;>
      simp [sendSize, h, XBEE_TX64, XBEE_RX64, XBEE_TX16, XBEE_RX16,
        XBEE_ATCOMMANDRESPONSE, XBEE_TXSTATUS, XBEE_ATCOMMAND, XBEE_ATCOMMANDQ]
  · intro h
    rcases h with h | h <;>
      simp [sendSize, h, XBEE_TX64, XBEE_RX64, XBEE_TX16, XBEE_RX16,
        XBEE_ATCOMMANDRESPONSE, XBEE_TXSTATUS, XBEE_ATCOMMAND, XBEE_ATCOMMANDQ]
  · intro h
    simp [sendSize, h, XBEE_TX64, XBEE_RX64, XBEE_TX16, XBEE_RX16,
      XBEE_ATCOMMANDRESPONSE, XBEE_TXSTATUS, XBEE_ATCOMMAND, XBEE_ATCOMMANDQ]
  · intro h
    simp only [List.mem_cons, List.not_mem_nil, or_false, not_or] at h
    obtain ⟨h1, h2, h3, h4, h5, h6, h7, h8⟩ := h
    simp [sendSize, h1, h2, h3, h4, h5, h6, h7, h8]
  · intro h
    rw [(hget 0).2.1, (hget 0).2.2]
    simp [sendSize, h, XBEE_TX64, XBEE_RX64, XBEE_TX16, XBEE_RX16,
      XBEE_ATCOMMANDRESPONSE, XBEE_TXSTATUS, XBEE_ATCOMMAND, XBEE_ATCOMMANDQ]

/-- C2 witness: at the concrete 64-bit transmit packet with 0 data bytes,
the hypothesis holds and the emitted big-endian length bytes combine to
exactly 11. -/
theorem xbee_c2_declared_payload_length_witness :
    0 + 11 ≤ 65535 ∧
    (XBee_SendPacket tx64EmptyPacket 0).getD 1 0 * 256 +
      (XBee_SendPacket tx64EmptyPacket 0).getD 2 0 = 11 :=
  ⟨by norm_num,
   (xbee_c2_declared_payload_length tx64EmptyPacket 0 (by norm_num)).2.2.2.2.2.2.2
     (by decide)⟩

/-- A packet parked in the checksum state mid-frame. -/
def crcStatePacket : XBeePacket :=
  { buf := emptyImage, crc := 7, rxState := .crc, length := 3, index := 3,
    dataPtr := 3 }

/-- A packet parked in the payload state mid-frame. -/
def payloadStatePacket : XBeePacket :=
  { buf := emptyImage, crc := 7, rxState := .payload, length := 5, index := 2,
    dataPtr := 2 }

/-- C4: framing corruption is recovered locally and is never fatal:
(1) a non-matching checksum byte (other than the start byte, whose
behaviour the second clause governs) resets the packet, returns the state
machine to `AWAIT_START`, and the call merely reports no packet;
(2) in any state after `AWAIT_START` an incoming start byte resets the
packet and restarts framing at the first length state; and
(3) from that aborted state a subsequent well-formed frame (no embedded
start bytes, checksum byte not the start byte, length within capacity)
is still decoded completely. -/
theorem xbee_c4_corruption_recovery :
    (∀ (p : XBeePacket) (c : Nat), p.rxState = RxState.crc →
      c ≠ XBEE_PACKET_STARTBYTE → (p.crc + c) % 256 ≠ 0xFF →
      stepByte p c = (XBee_ResetPacket p, some false) ∧
      (XBee_ResetPacket p).rxState = RxState.start) ∧
    (∀ (p : XBeePacket), p.rxState ≠ RxState.start →
      stepByte p XBEE_PACKET_STARTBYTE =
        ({ XBee_ResetPacket p with rxState := RxState.length1 }, none)) ∧
    (∀ (s : XBeePacket) (p : List Nat), 1 ≤ p.length →
      p.length ≤ XBEE_MAX_PACKET_SIZE →
      (∀ c ∈ p, c ≠ XBEE_PACKET_STARTBYTE) →
      0xFF - p.sum % 256 ≠ XBEE_PACKET_STARTBYTE →
      XBee_GetPacket { XBee_ResetPacket s with rxState := RxState.length1 }
          (frameBytes p) =
        (frameFinal (s.buf.set 0 0) p, [], some true)) :=
  ⟨fun p c h hc hbad => ⟨stepByte_crc_fail p c h hc hbad, rfl⟩,
   fun p h => stepByte_resync p h,
   fun s p h1 h2 hc hck => run_frame_after_abort s p h1 h2 hc hck⟩

/-- C4 witness: the three recovery behaviours at concrete inputs — a bad
checksum byte in the checksum state, a stray start byte in the payload
state, and a full valid frame with payload `[1, 2, 3]` after the abort. -/
theorem xbee_c4_corruption_recovery_witness :
    (stepByte crcStatePacket 1 =
      (XBee_ResetPacket crcStatePacket, some false) ∧
     (XBee_ResetPacket crcStatePacket).rxState = RxState.start) ∧
    stepByte payloadStatePacket XBEE_PACKET_STARTBYTE =
      ({ XBee_ResetPacket payloadStatePacket with rxState := RxState.length1 },
       none) ∧
    XBee_GetPacket
        { XBee_ResetPacket payloadStatePacket with rxState := RxState.length1 }
        (frameBytes [1, 2, 3]) =
      (frameFinal (payloadStatePacket.buf.set 0 0) [1, 2, 3], [], some true) :=
  ⟨xbee_c4_corruption_recovery.1 crcStatePacket 1 rfl (by decide) (by decide),
   xbee_c4_corruption_recovery.2.1 payloadStatePacket (by decide),
   xbee_c4_corruption_recovery.2.2 payloadStatePacket [1, 2, 3] (by decide)
     (by decide) (by decide) (by decide)⟩

/-- C5: (1) a non-start second length byte combines big-endian with the
stored high byte and is clamped to the capacity before the payload state
is entered; and (2) from a freshly reset packet, for any input byte
stream whatsoever, the write cursor (the number of payload bytes appended
for the current frame) never exceeds `XBEE_MAX_PACKET_SIZE` and the image
beyond the capacity is never written. -/
theorem xbee_c5_clamp_and_no_overrun :
    (∀ (p : XBeePacket) (c : Nat), p.rxState = RxState.length2 →
      c ≠ XBEE_PACKET_STARTBYTE →
      (stepByte p c).1.length = min (p.length + c) XBEE_MAX_PACKET_SIZE ∧
      (stepByte p c).1.rxState = RxState.payload) ∧
    (∀ (s : XBeePacket) (xs : List Nat),
      (XBee_GetPacket (XBee_ResetPacket s) xs).1.dataPtr ≤
        XBEE_MAX_PACKET_SIZE ∧
      (XBee_GetPacket (XBee_ResetPacket s) xs).1.buf.drop XBEE_MAX_PACKET_SIZE =
        (XBee_ResetPacket s).buf.drop XBEE_MAX_PACKET_SIZE) := by
  constructor
  · intro p c h hc
    rw [stepByte_length2 p c h hc]
    refine ⟨?_, rfl⟩
    show (if p.length + c > XBEE_MAX_PACKET_SIZE then XBEE_MAX_PACKET_SIZE
          else p.length + c) = min (p.length + c) XBEE_MAX_PACKET_SIZE
    split <;> omega
  · intro s xs
    exact getPacket_inv xs (XBee_ResetPacket s) (rxInv_reset s)

/-- A packet that has read high length byte 1 and is waiting for the low
length byte. -/
def length2StatePacket : XBeePacket :=
  { buf := emptyImage, crc := 0, rxState := .length2, length := 256,
    index := 0, dataPtr := 0 }

/-- C5 witness: the clamp at a concrete oversized declared length (high
byte 1, low byte 44, declared 300, stored 100), and the cursor bound after
a concrete oversized-frame stream fed to a freshly reset packet. -/
theorem xbee_c5_clamp_and_no_overrun_witness :
    ((stepByte length2StatePacket 44).1.length =
      min (length2StatePacket.length + 44) XBEE_MAX_PACKET_SIZE ∧
     (stepByte length2StatePacket 44).1.rxState =
      RxState.payload) ∧
    ((XBee_GetPacket (XBee_ResetPacket (mkFresh emptyImage))
        [126, 1, 44, 9, 9, 9]).1.dataPtr ≤ XBEE_MAX_PACKET_SIZE ∧
     (XBee_GetPacket (XBee_ResetPacket (mkFresh emptyImage))
        [126, 1, 44, 9, 9, 9]).1.buf.drop XBEE_MAX_PACKET_SIZE =
      (XBee_ResetPacket (mkFresh emptyImage)).buf.drop XBEE_MAX_PACKET_SIZE) :=
  ⟨xbee_c5_clamp_and_no_overrun.1 length2StatePacket 44 rfl (by decide),
   xbee_c5_clamp_and_no_overrun.2 (mkFresh emptyImage) [126, 1, 44, 9, 9, 9]⟩

/-- C6: delivering a well-formed frame's bytes one per call to the
receiver (N calls for N bytes, without resetting the packet between
calls) reaches exactly the same packet and the same final result as
delivering all the bytes in a single call, and that result is a ready
packet with the whole stream consumed. -/
theorem xbee_c6_incremental_feed (b p : List Nat) (h1 : 1 ≤ p.length)
    (h2 : p.length ≤ XBEE_MAX_PACKET_SIZE)
    (hc : ∀ c ∈ p, c ≠ XBEE_PACKET_STARTBYTE)
    (hck : 0xFF - p.sum % 256 ≠ XBEE_PACKET_STARTBYTE) :
    XBee_GetPacketBytewise (mkFresh b) (frameBytes p) =
      ((XBee_GetPacket (mkFresh b) (frameBytes p)).1,
       (XBee_GetPacket (mkFresh b) (frameBytes p)).2.2) ∧
    (XBee_GetPacket (mkFresh b) (frameBytes p)).2.2 = some true ∧
    (XBee_GetPacket (mkFresh b) (frameBytes p)).2.1 = [] := by
  have hrun : XBee_GetPacket (mkFresh b) (frameBytes p) =
      (frameFinal b p, [], some true) := run_frame b p h1 h2 hc hck
  have hbw := bytewise_eq_run (frameBytes p) (mkFresh b) (frameFinal b p)
    (some true) hrun
  rw [hrun, hbw]
  exact ⟨rfl, rfl, rfl⟩

/-- C6 witness: incremental feed of the valid frame with payload `[5, 6]`
into a fresh packet agrees with the single-call decode, which reports a
ready packet. -/
theorem xbee_c6_incremental_feed_witness :
    XBee_GetPacketBytewise (mkFresh emptyImage) (frameBytes [5, 6]) =
      ((XBee_GetPacket (mkFresh emptyImage) (frameBytes [5, 6])).1,
       (XBee_GetPacket (mkFresh emptyImage) (frameBytes [5, 6])).2.2) ∧
    (XBee_GetPacket (mkFresh emptyImage) (frameBytes [5, 6])).2.2 =
      some true ∧
    (XBee_GetPacket (mkFresh emptyImage) (frameBytes [5, 6])).2.1 = [] :=
  xbee_c6_incremental_feed emptyImage [5, 6] (by decide) (by decide)
    (by decide) (by decide)

/-- All four output pointers of `XBee_ReadAtResponsePacket` non-null. -/
def allAtRespFlags : AtRespFlags := ⟨true, true, true, true⟩

/-- Both output pointers of `XBee_ReadTXStatusPacket` non-null. -/
def allTXStatFlags : TXStatFlags := ⟨true, true⟩

/-- A populated AT command response packet: frameID 9, command bytes
`AB`, status 0, two value bytes. -/
def atRespSamplePacket : XBeePacket :=
  mkFresh (padTo [0x88, 9, 65, 66, 0, 100, 101])

/-- Caller output locations for `XBee_ReadAtResponsePacket` holding
recognizable previous contents. -/
def presetAtRespOuts : AtRespOuts := ⟨55, [1, 2], 77, [9]⟩

/-- C9: on any AT-command-response packet, with a non-null command
argument, `XBee_ReadAtResponsePacket` returns true and fills the frameID,
status and data outputs from the packet when their pointers are non-null,
but never writes through the command output: the caller's command bytes
are identical before and after the call. -/
theorem xbee_c9_atresponse_command_discarded (xbp : XBeePacket)
    (f : AtRespFlags) (pre : AtRespOuts)
    (h : apiId xbp = XBEE_ATCOMMANDRESPONSE) (hf : f.command = true) :
    (XBee_ReadAtResponsePacket xbp f pre).1 = true ∧
    (XBee_ReadAtResponsePacket xbp f pre).2.command = pre.command ∧
    (XBee_ReadAtResponsePacket xbp f pre).2.frameID =
      (if f.frameID then byteAt xbp 1 else pre.frameID) ∧
    (XBee_ReadAtResponsePacket xbp f pre).2.status =
      (if f.status then byteAt xbp 4 else pre.status) ∧
    (XBee_ReadAtResponsePacket xbp f pre).2.data =
      (if f.data then (xbp.buf.drop 5).map (· % 256) else pre.data) := by
  unfold XBee_ReadAtResponsePacket
  rw [if_neg (by simp [h])]
  exact ⟨rfl, rfl, rfl, rfl, rfl⟩

/-- C9 witness: on the concrete AT response packet with all pointers
non-null, the call succeeds and the caller's command bytes `[1, 2]` are
returned untouched. -/
theorem xbee_c9_atresponse_command_discarded_witness :
    (XBee_ReadAtResponsePacket atRespSamplePacket allAtRespFlags
        presetAtRespOuts).1 = true ∧
    (XBee_ReadAtResponsePacket atRespSamplePacket allAtRespFlags
        presetAtRespOuts).2.command = presetAtRespOuts.command ∧
    (XBee_ReadAtResponsePacket atRespSamplePacket allAtRespFlags
        presetAtRespOuts).2.frameID =
      (if allAtRespFlags.frameID then byteAt atRespSamplePacket 1
       else presetAtRespOuts.frameID) ∧
    (XBee_ReadAtResponsePacket atRespSamplePacket allAtRespFlags
        presetAtRespOuts).2.status =
      (if allAtRespFlags.status then byteAt atRespSamplePacket 4
       else presetAtRespOuts.status) ∧
    (XBee_ReadAtResponsePacket atRespSamplePacket allAtRespFlags
        presetAtRespOuts).2.data =
      (if allAtRespFlags.data
       then (atRespSamplePacket.buf.drop 5).map (· % 256)
       else presetAtRespOuts.data) :=
  xbee_c9_atresponse_command_discarded atRespSamplePacket allAtRespFlags
    presetAtRespOuts (by decide) rfl

/-- C10: for the four readers with nullable scalar outputs, every output
is written only when its pointer is non-null: for any packet, any flag
pattern and any previous caller contents, the boolean result equals the
all-non-null call's result, and each output location ends up holding the
all-non-null call's value when its pointer is non-null and its previous
contents when it is null. -/
theorem xbee_c10_null_subset_safety :
    (∀ (xbp : XBeePacket) (f : RXFlags) (pre : RXOuts),
      (XBee_ReadRX16Packet xbp f pre).1 =
        (XBee_ReadRX16Packet xbp allRXFlags pre).1 ∧
      (XBee_ReadRX16Packet xbp f pre).2.srcAddress =
        (if f.srcAddress then (XBee_ReadRX16Packet xbp allRXFlags pre).2.srcAddress
         else pre.srcAddress) ∧
      (XBee_ReadRX16Packet xbp f pre).2.sigstrength =
        (if f.sigstrength then (XBee_ReadRX16Packet xbp allRXFlags pre).2.sigstrength
         else pre.sigstrength) ∧
      (XBee_ReadRX16Packet xbp f pre).2.options =
        (if f.options then (XBee_ReadRX16Packet xbp allRXFlags pre).2.options
         else pre.options) ∧
      (XBee_ReadRX16Packet xbp f pre).2.data =
        (if f.data then (XBee_ReadRX16Packet xbp allRXFlags pre).2.data
         else pre.data) ∧
      (XBee_ReadRX16Packet xbp f pre).2.datalength =
        (if f.datalength then (XBee_ReadRX16Packet xbp allRXFlags pre).2.datalength
         else pre.datalength)) ∧
    (∀ (xbp : XBeePacket) (f : RXFlags) (pre : RXOuts),
      (XBee_ReadRX64Packet xbp f pre).1 =
        (XBee_ReadRX64Packet xbp allRXFlags pre).1 ∧
      (XBee_ReadRX64Packet xbp f pre).2.srcAddress =
        (if f.srcAddress then (XBee_ReadRX64Packet xbp allRXFlags pre).2.srcAddress
         else pre.srcAddress) ∧
      (XBee_ReadRX64Packet xbp f pre).2.sigstrength =
        (if f.sigstrength then (XBee_ReadRX64Packet xbp allRXFlags pre).2.sigstrength
         else pre.sigstrength) ∧
      (XBee_ReadRX64Packet xbp f pre).2.options =
        (if f.options then (XBee_ReadRX64Packet xbp allRXFlags pre).2.options
         else pre.options) ∧
      (XBee_ReadRX64Packet xbp f pre).2.data =
        (if f.data then (XBee_ReadRX64Packet xbp allRXFlags pre).2.data
         else pre.data) ∧
      (XBee_ReadRX64Packet xbp f pre).2.datalength =
        (if f.datalength then (XBee_ReadRX64Packet xbp allRXFlags pre).2.datalength
         else pre.datalength)) ∧
    (∀ (xbp : XBeePacket) (f : AtRespFlags) (pre : AtRespOuts),
      (XBee_ReadAtResponsePacket xbp f pre).1 =
        (XBee_ReadAtResponsePacket xbp allAtRespFlags pre).1 ∧
      (XBee_ReadAtResponsePacket xbp f pre).2.frameID =
        (if f.frameID then (XBee_ReadAtResponsePacket xbp allAtRespFlags pre).2.frameID
         else pre.frameID) ∧
      (XBee_ReadAtResponsePacket xbp f pre).2.command = pre.command ∧
      (XBee_ReadAtResponsePacket xbp f pre).2.status =
        (if f.status then (XBee_ReadAtResponsePacket xbp allAtRespFlags pre).2.status
         else pre.status) ∧
      (XBee_ReadAtResponsePacket xbp f pre).2.data =
        (if f.data then (XBee_ReadAtResponsePacket xbp allAtRespFlags pre).2.data
         else pre.data)) ∧
    (∀ (xbp : XBeePacket) (f : TXStatFlags) (pre : TXStatOuts),
      (XBee_ReadTXStatusPacket xbp f pre).1 =
        (XBee_ReadTXStatusPacket xbp allTXStatFlags pre).1 ∧
      (XBee_ReadTXStatusPacket xbp f pre).2.frameID =
        (if f.frameID then (XBee_ReadTXStatusPacket xbp allTXStatFlags pre).2.frameID
         else pre.frameID) ∧
      (XBee_ReadTXStatusPacket xbp f pre).2.status =
        (if f.status then (XBee_ReadTXStatusPacket xbp allTXStatFlags pre).2.status
         else pre.status)) := by
  refine ⟨?_, ?_, ?_, ?_⟩
  · intro xbp f pre
    by_cases h : apiId xbp = XBEE_RX16 <;>
      simp [XBee_ReadRX16Packet, h, allRXFlags, ite_self]
  · intro xbp f pre
    by_cases h : apiId xbp = XBEE_RX64 <;>
      simp [XBee_ReadRX64Packet, h, allRXFlags, ite_self]
  · intro xbp f pre
    by_cases h : apiId xbp = XBEE_ATCOMMANDRESPONSE <;>
      simp [XBee_ReadAtResponsePacket, h, allAtRespFlags, ite_self]
  · intro xbp f pre
    by_cases h : apiId xbp = XBEE_TXSTATUS <;>
      simp [XBee_ReadTXStatusPacket, h, allTXStatFlags, ite_self]
